import Mathlib

set_option maxRecDepth 100000

/-!
Verification of the RTM (Restricted Transactional Memory) intrinsics module
`crates/core_arch/src/x86/rtm.rs`.

The module exposes four hardware primitives (`_xbegin`, `_xend`, `_xabort`,
`_xtest`), five abort-flag constants plus the Started sentinel, and one pure
decoding helper `_xabort_code`.  The constants and `_xabort_code` are pure
Rust code and are embedded directly.  The four primitives bind to LLVM
intrinsics whose behaviour is hardware-defined and not present in the source
slice; their semantics is modelled from the specification as a small state
machine over an `Idle`/`Active` transaction state.

Machine integers (`u32`) are embedded as `Nat`; all operations involved
(shift right, bitwise and/or) cannot exceed the 32-bit range when their
inputs are in range, so no explicit wrap-around is needed.
-/

/-- Transaction successfully started.  Source: `pub const _XBEGIN_STARTED: u32 = !0;`
(`!0` on `u32` is the all-bits-set 32-bit value). -/
def _XBEGIN_STARTED : Nat := 2 ^ 32 - 1

/-- Transaction explicitly aborted with xabort.  Source: `1 << 0`. -/
def _XABORT_EXPLICIT : Nat := 1 <<< 0

/-- Transaction retry is possible.  Source: `1 << 1`. -/
def _XABORT_RETRY : Nat := 1 <<< 1

/-- Transaction abort due to a memory conflict with another thread.  Source: `1 << 2`. -/
def _XABORT_CONFLICT : Nat := 1 <<< 2

/-- Transaction abort due to the transaction using too much memory.  Source: `1 << 3`. -/
def _XABORT_CAPACITY : Nat := 1 <<< 3

/-- Transaction abort due to a debug trap.  Source: `1 << 4`. -/
def _XABORT_DEBUG : Nat := 1 <<< 4

/-- Transaction abort in a inner nested transaction.  Source: `1 << 5`. -/
def _XABORT_NESTED : Nat := 1 <<< 5

/-- Retrieves the parameter passed to `_xabort` when `_xbegin`'s status has the
`_XABORT_EXPLICIT` flag set.  Source: `pub const fn _xabort_code(status: u32) -> u32
\x7b (status >> 24) & 0xFF \x7d`. -/
def _xabort_code (status : Nat) : Nat := (status >>> 24) &&& 0xFF

/-- Modelled from the spec: the transaction state of the executing context.
The hardware register state behind the `llvm.x86` intrinsics is not in the
source slice; the spec describes a two-state machine, `Idle` (no active
region) and `Active` (region open). -/
inductive TxState where
  | Idle : TxState
  | Active : TxState
deriving DecidableEq

/-- Modelled from the spec: the shape of a status word surfaced at the Begin
call site when a region aborts — a bitmask of abort flags in bits 0-5
(`flags < 64`) together with an 8-bit diagnostic code in bits 24-31. -/
def abortStatusWord (flags code : Nat) : Nat := flags ||| (code <<< 24)

/-- Modelled from the spec: the possible outcomes of `_xbegin` (the
`llvm.x86.xbegin` intrinsic is hardware-defined and absent from the source
slice).  It always returns: either the Started sentinel, moving the context
into an active region, or an abort status word, leaving the context idle.
The choice between the two is hardware nondeterminism, hence a relation. -/
inductive beginStep : TxState → TxState × Nat → Prop where
  | started : beginStep TxState.Idle (TxState.Active, _XBEGIN_STARTED)
  | aborted (flags code : Nat) (hf : flags < 64) (hc : code < 256) :
      beginStep TxState.Idle (TxState.Idle, abortStatusWord flags code)

/-- Modelled from the spec: `_xtest` (the `llvm.x86.xtest` intrinsic is
hardware-defined and absent from the source slice) queries whether the
context is inside an active transactional region: 1 inside, 0 outside. -/
def _xtest : TxState → Nat
  | TxState.Active => 1
  | TxState.Idle => 0

/-- Modelled from the spec: `_xend` commits and exits an active region;
calling it while idle is undefined behaviour, hence `none`. -/
def _xend : TxState → Option TxState
  | TxState.Active => some TxState.Idle
  | TxState.Idle => none

/-- Modelled from the spec: `_xabort` (the `llvm.x86.xabort` intrinsic is
hardware-defined and absent from the source slice; the 8-bit immediate
encoding truncates the argument to its low 8 bits).  Inside an active region
it rolls the region back to `Idle` and surfaces at the Begin call site a
status with `EXPLICIT` set and the truncated code in bits 24-31; while no
region is active it is a no-op that surfaces nothing. -/
def _xabort (imm8 : Nat) : TxState → TxState × Option Nat
  | TxState.Idle => (TxState.Idle, none)
  | TxState.Active =>
      (TxState.Idle, some (abortStatusWord _XABORT_EXPLICIT (imm8 % 256)))

/-- Helper: decoding an explicit-abort status word recovers the code. -/
theorem abortStatusWord_decode :
    ∀ c < 256, _xabort_code (abortStatusWord _XABORT_EXPLICIT c) = c := by
  decide

/-- Helper: an explicit-abort status word has the `EXPLICIT` bit set. -/
theorem abortStatusWord_explicit_set :
    ∀ c < 256, abortStatusWord _XABORT_EXPLICIT c &&& _XABORT_EXPLICIT ≠ 0 := by
  decide

/-- Helper: every abort status word lies within the mask of the six abort
flags and the diagnostic-code field. -/
theorem abortStatusWord_masked :
    ∀ flags < 64, ∀ code < 256,
      abortStatusWord flags code &&& 0xFF00003F = abortStatusWord flags code := by
  decide

/-- Claim C1: for every diagnostic code `c` in 0..256, if a region is entered,
`_xabort c` is called inside it, and the status surfaced at the Begin call
site has the `EXPLICIT` flag set, then `_xabort_code` applied to that status
returns exactly `c`. -/
theorem xabort_code_roundtrip :
    ∀ c < 256, ∀ s₀ stat : Nat,
      beginStep TxState.Idle (TxState.Active, s₀) →
      _xabort c TxState.Active = (TxState.Idle, some stat) →
      stat &&& _XABORT_EXPLICIT ≠ 0 →
      _xabort_code stat = c := by
  intro c hc s₀ stat _ hab _
  have hstat : stat = abortStatusWord _XABORT_EXPLICIT (c % 256) := by
    simpa [_xabort] using hab.symm
  rw [hstat, Nat.mod_eq_of_lt hc]
  exact abortStatusWord_decode c hc

/-- Witness for C1 at the concrete code 5. -/
theorem xabort_code_roundtrip_witness :
    _xabort_code (abortStatusWord _XABORT_EXPLICIT 5) = 5 :=
  xabort_code_roundtrip 5 (by decide) _XBEGIN_STARTED
    (abortStatusWord _XABORT_EXPLICIT 5) beginStep.started (by decide) (by decide)

/-- Claim C2: the named status constants have exactly the hardware-fixed
values: Started is all 32 bits set, `EXPLICIT` is bit 0, `RETRY` bit 1,
`CONFLICT` bit 2, `CAPACITY` bit 3, `DEBUG` bit 4, `NESTED` bit 5. -/
theorem rtm_constant_values :
    _XBEGIN_STARTED = 4294967295 ∧ _XABORT_EXPLICIT = 1 ∧ _XABORT_RETRY = 2 ∧
    _XABORT_CONFLICT = 4 ∧ _XABORT_CAPACITY = 8 ∧ _XABORT_DEBUG = 16 ∧
    _XABORT_NESTED = 32 := by
  decide

/-- Counterexample to claim C3 as stated: the bitwise AND of the Started
sentinel with the `EXPLICIT` flag is 1, not 0, because the sentinel has all
32 bits set, including every abort-flag bit. -/
theorem started_and_explicit_ne_zero :
    _XBEGIN_STARTED &&& _XABORT_EXPLICIT = 1 ∧
    ¬ (_XBEGIN_STARTED &&& _XABORT_EXPLICIT = 0) := by
  decide

/-- Claim C3 amended: the Started sentinel never coincides with an abort
status.  Every abort status word (any subset of the six flag bits together
with any 8-bit diagnostic code) differs from `_XBEGIN_STARTED`, because the
sentinel also has bits 6-23 set while no abort status does, so a Started
result is never interpreted as an abort status. -/
theorem started_ne_abortStatusWord :
    ∀ flags < 64, ∀ code < 256,
      abortStatusWord flags code ≠ _XBEGIN_STARTED := by
  decide

/-- Witness for the amended C3 at the concrete flags `EXPLICIT` and code 5. -/
theorem started_ne_abortStatusWord_witness :
    abortStatusWord _XABORT_EXPLICIT 5 ≠ _XBEGIN_STARTED :=
  started_ne_abortStatusWord _XABORT_EXPLICIT (by decide) 5 (by decide)

/-- Claim C4: `_xabort_code` is a pure total function; for every status it
returns the 8-bit field in bits 24-31, i.e. `(s >> 24) & 0xFF`, which equals
the arithmetic field extraction `s / 2^24 % 256` and is always at most 255. -/
theorem xabort_code_eq_field :
    ∀ status : Nat,
      _xabort_code status = status / 2 ^ 24 % 256 ∧ _xabort_code status ≤ 255 := by
  intro status
  have hfield : _xabort_code status = status / 2 ^ 24 % 256 := by
    unfold _xabort_code
    rw [Nat.shiftRight_eq_div_pow]
    have h : (0xFF : Nat) = 2 ^ 8 - 1 := by decide
    rw [h, Nat.and_pow_two_sub_one_eq_mod]
  refine ⟨hfield, ?_⟩
  have hlt : status / 2 ^ 24 % 256 < 256 := Nat.mod_lt _ (by decide)
  omega

/-- Claim C5: `_xtest` is boolean-valued: it returns 0 outside any region
(`Idle`), returns 1 in the `Active` state reached by a successful Begin
(which returns the Started sentinel), and never returns anything but
0 or 1. -/
theorem xtest_boolean :
    _xtest TxState.Idle = 0 ∧ _xtest TxState.Active = 1 ∧
    beginStep TxState.Idle (TxState.Active, _XBEGIN_STARTED) ∧
    ∀ s : TxState, _xtest s = 0 ∨ _xtest s = 1 := by
  refine ⟨rfl, rfl, beginStep.started, ?_⟩
  intro s
  cases s with
  | Idle => exact Or.inl rfl
  | Active => exact Or.inr rfl

/-- Claim C6: for every diagnostic code, calling `_xabort` while no region is
active is a no-op: the state stays `Idle` and no status word is surfaced. -/
theorem xabort_idle_noop :
    ∀ imm8 : Nat, _xabort imm8 TxState.Idle = (TxState.Idle, none) := by
  intro imm8
  rfl

/-- Claim C7: `_xbegin` always returns (an outcome exists from `Idle`), and
every returned word is either exactly the Started sentinel or an abort status
whose set bits are a subset of the six abort flags (bits 0-5) plus the
diagnostic-code field (bits 24-31), i.e. the mask `0xFF00003F`. -/
theorem xbegin_outcomes :
    (∃ out, beginStep TxState.Idle out) ∧
    ∀ s out, beginStep s out →
      out.2 = _XBEGIN_STARTED ∨ out.2 &&& 0xFF00003F = out.2 := by
  refine ⟨⟨(TxState.Active, _XBEGIN_STARTED), beginStep.started⟩, ?_⟩
  intro s out h
  cases h with
  | started => exact Or.inl rfl
  | aborted flags code hf hc => exact Or.inr (abortStatusWord_masked flags hf code hc)

/-- Witness for C7 at the successful-start outcome. -/
theorem xbegin_outcomes_witness :
    _XBEGIN_STARTED = _XBEGIN_STARTED ∨
    _XBEGIN_STARTED &&& 0xFF00003F = _XBEGIN_STARTED :=
  xbegin_outcomes.2 TxState.Idle (TxState.Active, _XBEGIN_STARTED) beginStep.started

/-- Claim C8: `_xabort` uses only the low 8 bits of its argument: for every
input `x` and every state, `_xabort x` behaves exactly as `_xabort (x % 256)`
does — the argument is truncated to 0-255, not rejected. -/
theorem xabort_truncates_imm8 :
    ∀ imm8 : Nat, ∀ s : TxState, _xabort imm8 s = _xabort (imm8 % 256) s := by
  intro imm8 s
  have h : imm8 % 256 % 256 = imm8 % 256 := Nat.mod_mod_of_dvd imm8 dvd_rfl
  cases s with
  | Idle => rfl
  | Active => simp [_xabort, h]

/-- Claim C9: decoding the Started sentinel yields the maximal 8-bit value:
`_xabort_code _XBEGIN_STARTED = 255`, which is nonzero. -/
theorem xabort_code_of_started :
    _xabort_code _XBEGIN_STARTED = 255 ∧ _xabort_code _XBEGIN_STARTED ≠ 0 := by
  decide

/-- Claim C10: `_xabort_code` never panics or overflows on any 32-bit input:
the shift by 24 keeps the intermediate below 256 for in-range inputs, and the
mask keeps the final result below 256, hence within the 32-bit range — the
embedding is a total function with no error branch. -/
theorem xabort_code_total_in_range :
    ∀ status : Nat, status < 2 ^ 32 →
      _xabort_code status < 256 ∧ status >>> 24 < 256 ∧ _xabort_code status < 2 ^ 32 := by
  intro status hs
  have hmask : _xabort_code status < 256 :=
    Nat.lt_of_le_of_lt (Nat.and_le_right) (by decide)
  have hshift : status >>> 24 < 256 := by
    rw [Nat.shiftRight_eq_div_pow]
    have h24 : (2 : Nat) ^ 24 = 16777216 := by norm_num
    have h32 : (2 : Nat) ^ 32 = 4294967296 := by norm_num
    rw [h24]
    rw [h32] at hs
    omega
  exact ⟨hmask, hshift, Nat.lt_of_lt_of_le hmask (by norm_num)⟩

/-- Witness for C10 at the concrete status value equal to the sentinel. -/
theorem xabort_code_total_in_range_witness :
    _xabort_code 4294967295 < 256 ∧ (4294967295 : Nat) >>> 24 < 256 ∧
    _xabort_code 4294967295 < 2 ^ 32 :=
  xabort_code_total_in_range 4294967295 (by norm_num)
